import Mathlib

/-!
# Verification of the PODIOWriter module (allpix-squared)

Shallow embedding of `src/modules/PODIOWriter/PODIOWriterModule.hpp` and
`src/modules/PODIOWriter/PODIOWriterModule.cpp`, covering the module
constructor, `initialize`, `run` and `finalize` (the GEAR geometry export).

Numeric values that the C++ code holds in `double` are embedded as rationals.
The single irrational expression in the module, `pitch.x() / std::sqrt(12)`,
is embedded exactly in the quadratic extension of the rationals by the square
root of three (`Q3` below), keeping all definitions computable.

External framework pieces (the rotation-angle decomposition helper
`getRotationAnglesFromMatrix`, which is not defined in this repository's
sources, and the unit factors for tesla and degree used by `Units::convert`)
are passed in through an `ExternalEnv` parameter; all theorems hold for every
choice of that environment.
-/

namespace Allpix

/-- Exact arithmetic in the field extension by the square root of three:
`⟨a, b⟩` stands for `a + b·√3`.  Used to embed the one square root appearing
in the module, `std::sqrt(12) = 2·√3`. -/
structure Q3 where
  a : ℚ
  b : ℚ
deriving DecidableEq

def Q3.ofRat (q : ℚ) : Q3 := ⟨q, 0⟩

def Q3.mul (p q : Q3) : Q3 :=
  ⟨p.a * q.a + 3 * p.b * q.b, p.a * q.b + p.b * q.a⟩

def Q3.inv (p : Q3) : Q3 :=
  ⟨p.a / (p.a ^ 2 - 3 * p.b ^ 2), -p.b / (p.a ^ 2 - 3 * p.b ^ 2)⟩

def Q3.div (p q : Q3) : Q3 := p.mul q.inv

/-- `std::sqrt(12)` embedded exactly as `2·√3`. -/
def Q3.sqrt12 : Q3 := ⟨0, 2⟩

/-- Sanity: the element named `sqrt12` squares to twelve. -/
theorem Q3.sqrt12_mul_sqrt12 : Q3.mul Q3.sqrt12 Q3.sqrt12 = Q3.ofRat 12 := by
  simp [Q3.mul, Q3.sqrt12, Q3.ofRat]
  norm_num

/-- `ROOT::Math::XYZVector` / `XYZPoint` (three `double` components). -/
structure XYZVector where
  x : ℚ
  y : ℚ
  z : ℚ
deriving DecidableEq

/-- A two-component vector of doubles (pixel pitch, `getPixelSize()`). -/
structure XYVectorQ where
  x : ℚ
  y : ℚ
deriving DecidableEq

/-- A two-component vector of unsigned integers (pixel counts, `getNPixels()`). -/
structure XYVectorN where
  x : Nat
  y : Nat
deriving DecidableEq

/-- `ROOT::Math::Rotation3D`: a 3×3 matrix of doubles.  The module only ever
hands it to the external decomposition helper, so no operations are needed. -/
structure Rotation3D where
  xx : ℚ
  xy : ℚ
  xz : ℚ
  yx : ℚ
  yy : ℚ
  yz : ℚ
  zx : ℚ
  zy : ℚ
  zz : ℚ
deriving DecidableEq

/-- `Units::convert(value, unit)`: a value in framework base units divided by
the factor of the requested unit. -/
def Units.convert (value unit : ℚ) : ℚ := value / unit

/-- The framework's internal length unit is the millimetre, so the factor for
the string `"mm"` is one. -/
def Units.mm : ℚ := 1

/-- `Units::convert` on an exact `Q3` value (used for the resolution entry,
whose internal value involves `std::sqrt(12)`). -/
def Units.convertQ (value : Q3) (unit : ℚ) : Q3 := Q3.div value (Q3.ofRat unit)

/-- The relevant read-only surface of `allpix::DetectorModel`. -/
structure DetectorModel where
  nPixels : XYVectorN
  pixelSize : XYVectorQ
  size : XYZVector
  sensorSize : XYZVector
deriving DecidableEq

/-- The relevant read-only surface of `allpix::Detector`. -/
structure Detector where
  name : String
  type : String
  position : XYZVector
  orientation : Rotation3D
  model : DetectorModel
deriving DecidableEq

/-- `allpix::MagneticFieldType`. -/
inductive MagneticFieldType where
  | NONE
  | CONSTANT
  | CUSTOM
deriving DecidableEq

/-- The read-only surface of `allpix::GeometryManager` used by the module:
the detector list, the magnetic-field type and the field value at the origin
(the only point at which `finalize` samples it). -/
structure GeometryManager where
  detectors : List Detector
  magneticFieldType : MagneticFieldType
  magneticFieldAtOrigin : XYZVector
deriving DecidableEq

/-- Framework pieces external to the two source files: the rotation-angle
decomposition `getRotationAnglesFromMatrix` (only its call site is in this
repository) and the `Units` factors for the strings `"deg"` and `"T"`. -/
structure ExternalEnv where
  angleFn : Rotation3D → ℚ × ℚ × ℚ
  uT : ℚ
  udeg : ℚ

/-- The configuration keys read by the module.  `file_name` is `Option`al
because the constructor installs a default for it. -/
structure Configuration where
  pixel_type : Int
  detector_name : String
  dump_mc_truth : Bool
  output_collection_name : Option String
  detector_assignment : Option (List (String × String))
  geometry_file : String
  file_name : Option String
deriving DecidableEq

/-- Errors a module member function can signal (`throw ModuleError(...)` and
the configuration-combination error the constructor's comment promises). -/
inductive ModuleError where
  | moduleError (msg : String)
  | invalidCombination (msg : String)
deriving DecidableEq

/-- The module's member state.  `collection_names_vector_` and
`detector_names_to_id_` are read by `run` and `finalize` respectively, but no
code in the two source files ever declares or populates them; their
value-initialized (empty) state is therefore what every member function
observes. -/
structure ModuleState where
  pixel_type_ : Int
  detector_name_ : String
  dump_mc_truth_ : Bool
  collection_names_vector_ : List String
  detector_names_to_id_ : List (String × Nat)
  write_cnt_ : Nat
  geometry_file_name_ : String
  lcio_file_name_ : String
deriving DecidableEq

/-- Read access of `std::map<std::string, unsigned int>::operator[]`: the
stored value when the key is present, a value-initialized `0` otherwise. -/
def mapGetOrZero (m : List (String × Nat)) (k : String) : Nat :=
  (List.lookup k m).getD 0

/-- `PODIOWriterModule::PODIOWriterModule` (PODIOWriterModule.cpp, lines
25-44).  It installs the `file_name` default, reads `pixel_type`,
`detector_name` and `dump_mc_truth`, computes `has_short_config` and
`has_long_config`, and fetches the detector list — and then does nothing with
the last three: despite its own comment ("Throws an error if both are
provided"), no check is performed and no member other than the three read
values is initialized. -/
def constructModule (config : Configuration) (geo : GeometryManager) :
    Except ModuleError ModuleState :=
  let _file_name := config.file_name.getD ("output.edm4allpix.root")
  let has_short_config := config.output_collection_name.isSome
  let has_long_config := config.detector_assignment.isSome
  let _detectors := geo.detectors
  let _unused := (has_short_config, has_long_config)
  Except.ok
    { pixel_type_ := config.pixel_type
    , detector_name_ := config.detector_name
    , dump_mc_truth_ := config.dump_mc_truth
    , collection_names_vector_ := []
    , detector_names_to_id_ := []
    , write_cnt_ := 0
    , geometry_file_name_ := ("")
    , lcio_file_name_ := ("") }

/-- `PODIOWriterModule::initialize` (lines 46-61): stores the resolved output
file names (`createOutputFile` is framework code, so the resolved names are
parameters).  The LCIO run header and the podio writer hold no state relevant
to any claim. -/
def initializeModule (st : ModuleState) (resolvedGeometryFile resolvedDataFile : String) :
    ModuleState :=
  { st with
    geometry_file_name_ := resolvedGeometryFile
  , lcio_file_name_ := resolvedDataFile }

/-- One pixel hit as carried by a `PixelHitMessage`. -/
structure PixelHit where
  detectorName : String
  x : Nat
  y : Nat
deriving DecidableEq

/-- The per-event input to `run`: the event number and the pixel-hit message
batch fetched from the messenger. -/
structure Event where
  number : Nat
  pixelMessages : List (List PixelHit)
deriving DecidableEq

/-- An `LCCollectionVec`: a list of encoded tracker-data entries. -/
structure LCCollectionVec where
  entries : List Nat
deriving DecidableEq

/-- The observable content of the `LCEventImpl` assembled in `run`:
run number, event number, the `EventType` parameter, and the named collections
added to it (via `addCollection`, which `run` never calls). -/
structure LCEventRecord where
  runNumber : Int
  eventNumber : Int
  eventTypeParam : Int
  collections : List (String × LCCollectionVec)
deriving DecidableEq

/-- Everything observable that one call to `run` produces: the assembled LCIO
event, the locally allocated output collections, the four Monte-Carlo truth
collection pointers, and the collections the podio writer actually persists
(the content of `event_store_`, to which `run` registers nothing). -/
structure RunOutput where
  event : LCEventRecord
  outputCollections : List LCCollectionVec
  mc_cluster_vec : Option LCCollectionVec
  mc_cluster_raw_vec : Option LCCollectionVec
  mc_hit_vec : Option LCCollectionVec
  mc_track_vec : Option LCCollectionVec
  writtenCollections : List (String × LCCollectionVec)
deriving DecidableEq

/-- `PODIOWriterModule::run` (lines 63-90).  It fetches the pixel-hit
messages, builds an `LCEventImpl` with run number 1, the event number and
`EventType = 2`, allocates one empty collection per entry of
`collection_names_vector_` (which is never populated, so none), leaves the
four Monte-Carlo pointers at `nullptr`, and calls `writer_->writeEvent()` on
the empty `event_store_`.  No hit is ever read, encoded or appended, and no
collection is ever added to the event. -/
def run (st : ModuleState) (event : Event) : Except ModuleError RunOutput :=
  let _pixel_messages := event.pixelMessages
  let evt : LCEventRecord :=
    { runNumber := 1
    , eventNumber := Int.ofNat event.number
    , eventTypeParam := 2
    , collections := [] }
  let output_col_vec :=
    st.collection_names_vector_.map (fun _ => ({ entries := [] } : LCCollectionVec))
  Except.ok
    { event := evt
    , outputCollections := output_col_vec
    , mc_cluster_vec := none
    , mc_cluster_raw_vec := none
    , mc_hit_vec := none
    , mc_track_vec := none
    , writtenCollections := [] }

/-- The `BField` element of the GEAR file (type is always `ConstantBField`). -/
structure BFieldElement where
  x : ℚ
  y : ℚ
  z : ℚ
deriving DecidableEq

/-- The warning logged for unsupported magnetic-field representations
(PODIOWriterModule.cpp, line 119). -/
def fieldTypeWarning : String :=
  "Field type not handled by GEAR geometry. Writing null magnetic field instead."

/-- The magnetic-field branch of `finalize` (lines 111-121): the emitted
`BField` element together with the warnings logged while producing it. -/
def writeBField (geo : GeometryManager) (uT : ℚ) : BFieldElement × List String :=
  match geo.magneticFieldType with
  | MagneticFieldType.CONSTANT =>
      let b := geo.magneticFieldAtOrigin
      ({ x := Units.convert b.x uT, y := Units.convert b.y uT, z := Units.convert b.z uT }, [])
  | MagneticFieldType.NONE =>
      ({ x := 0, y := 0, z := 0 }, [])
  | MagneticFieldType.CUSTOM =>
      ({ x := 0, y := 0, z := 0 }, [fieldTypeWarning])

/-- The `<ladder .../>` record written by `finalize` (lines 146-160). -/
structure LadderRecord where
  id : Nat
  positionX : ℚ
  positionY : ℚ
  positionZ : ℚ
  rotationZY : ℚ
  rotationZX : ℚ
  rotationXY : ℚ
  sizeX : ℚ
  sizeY : ℚ
  thickness : ℚ
  radLength : ℚ
deriving DecidableEq

/-- The `<sensitive .../>` record written by `finalize` (lines 162-177). -/
structure SensitiveRecord where
  id : Nat
  positionX : ℚ
  positionY : ℚ
  positionZ : ℚ
  sizeX : ℚ
  sizeY : ℚ
  thickness : ℚ
  npixelX : Nat
  npixelY : Nat
  pitchX : ℚ
  pitchY : ℚ
  resolution : Q3
  rotation1 : ℚ
  rotation2 : ℚ
  rotation3 : ℚ
  rotation4 : ℚ
  radLength : ℚ
deriving DecidableEq

/-- One `<layer>` element: a ladder record paired with a sensitive record. -/
structure LayerElement where
  ladder : LadderRecord
  sensitive : SensitiveRecord
deriving DecidableEq

/-- The ladder record for one detector, as assembled by the loop body of
`finalize` (lines 146-160): positions converted to millimetres, the three
decomposition angles negated and converted to degrees, the total model size,
and the literal `radLength="93.65"`. -/
def mkLadder (env : ExternalEnv) (st : ModuleState) (d : Detector) : LadderRecord :=
  let angles := env.angleFn d.orientation
  { id := mapGetOrZero st.detector_names_to_id_ d.name
  , positionX := Units.convert d.position.x Units.mm
  , positionY := Units.convert d.position.y Units.mm
  , positionZ := Units.convert d.position.z Units.mm
  , rotationZY := Units.convert (-angles.1) env.udeg
  , rotationZX := Units.convert (-angles.2.1) env.udeg
  , rotationXY := Units.convert (-angles.2.2) env.udeg
  , sizeX := Units.convert d.model.size.x Units.mm
  , sizeY := Units.convert d.model.size.y Units.mm
  , thickness := Units.convert d.model.size.z Units.mm
  , radLength := 9365 / 100 }

/-- The sensitive record for one detector, as assembled by the loop body of
`finalize` (lines 162-177): extents are pixel count times pitch, thickness is
the sensor's z extent, the resolution is `pitch.x / sqrt 12`, the 2×2
rotation block is the identity, and `radLength="93.65"` again. -/
def mkSensitive (st : ModuleState) (d : Detector) : SensitiveRecord :=
  { id := mapGetOrZero st.detector_names_to_id_ d.name
  , positionX := Units.convert d.position.x Units.mm
  , positionY := Units.convert d.position.y Units.mm
  , positionZ := Units.convert d.position.z Units.mm
  , sizeX := Units.convert ((d.model.nPixels.x : ℚ) * d.model.pixelSize.x) Units.mm
  , sizeY := Units.convert ((d.model.nPixels.y : ℚ) * d.model.pixelSize.y) Units.mm
  , thickness := Units.convert d.model.sensorSize.z Units.mm
  , npixelX := d.model.nPixels.x
  , npixelY := d.model.nPixels.y
  , pitchX := Units.convert d.model.pixelSize.x Units.mm
  , pitchY := Units.convert d.model.pixelSize.y Units.mm
  , resolution := Units.convertQ (Q3.div (Q3.ofRat d.model.pixelSize.x) Q3.sqrt12) Units.mm
  , rotation1 := 1
  , rotation2 := 0
  , rotation3 := 0
  , rotation4 := 1
  , radLength := 9365 / 100 }

/-- One `<layer>` element of the GEAR file for one detector. -/
def mkLayer (env : ExternalEnv) (st : ModuleState) (d : Detector) : LayerElement :=
  { ladder := mkLadder env st d, sensitive := mkSensitive st d }

/-- The GEAR geometry document assembled by `finalize` (lines 105-187). -/
structure GeometryDocument where
  detectorName : String
  bfield : BFieldElement
  siplanesNumber : Nat
  siplanesID : Nat
  layers : List LayerElement
deriving DecidableEq

/-- The document content `finalize` writes when the geometry file name is
non-empty: the global detector name, the `BField` element, the plane count,
the fixed `siplanesID` of 0, and one layer per detector in list order. -/
def mkDocument (env : ExternalEnv) (st : ModuleState) (geo : GeometryManager) :
    GeometryDocument :=
  { detectorName := st.detector_name_
  , bfield := (writeBField geo env.uT).1
  , siplanesNumber := geo.detectors.length
  , siplanesID := 0
  , layers := geo.detectors.map (fun d => mkLayer env st d) }

/-- `PODIOWriterModule::finalize` (lines 92-191), geometry part.  If the
geometry file name is empty, nothing is written at all; otherwise the file is
opened (the `fileGood` flag stands for `geometry_file.good()`), a bad stream
is a fatal `ModuleError`, and on success the document is emitted together
with any field warnings. -/
def finalize (env : ExternalEnv) (st : ModuleState) (geo : GeometryManager)
    (fileGood : Bool) :
    Except ModuleError (Option GeometryDocument × List String) :=
  if st.geometry_file_name_ = ("") then
    Except.ok (none, [])
  else if fileGood = false then
    Except.error (ModuleError.moduleError ("Cannot write to GEAR geometry file"))
  else
    Except.ok (some (mkDocument env st geo), (writeBField geo env.uT).2)

/-- Whether an `Except` computation succeeded. -/
def exceptOk {ε α : Type} : Except ε α → Bool
  | Except.ok _ => true
  | Except.error _ => false

/-- A concrete external environment for evaluations: a decomposition function
returning zero angles and unit factors of one. -/
def envW : ExternalEnv := { angleFn := fun _ => (0, 0, 0), uT := 1, udeg := 1 }

/-- The identity orientation matrix. -/
def rotId : Rotation3D :=
  { xx := 1, xy := 0, xz := 0, yx := 0, yy := 1, yz := 0, zx := 0, zy := 0, zz := 1 }

/-- A concrete detector model: 100×100 pixels of 0.05 mm pitch, a 6×6×1 mm
envelope and a 5×5×0.3 mm sensor. -/
def modelW : DetectorModel :=
  { nPixels := { x := 100, y := 100 }
  , pixelSize := { x := 1 / 20, y := 1 / 20 }
  , size := { x := 6, y := 6, z := 1 }
  , sensorSize := { x := 5, y := 5, z := 3 / 10 } }

/-- First concrete detector, at the origin. -/
def det0 : Detector :=
  { name := ("det0"), type := ("telescope"), position := { x := 0, y := 0, z := 0 }
  , orientation := rotId, model := modelW }

/-- Second concrete detector, 50 mm downstream. -/
def det1 : Detector :=
  { name := ("det1"), type := ("telescope"), position := { x := 0, y := 0, z := 50 }
  , orientation := rotId, model := modelW }

/-- A concrete geometry with two detectors and no magnetic field. -/
def geoTwo : GeometryManager :=
  { detectors := [det0, det1]
  , magneticFieldType := MagneticFieldType.NONE
  , magneticFieldAtOrigin := { x := 0, y := 0, z := 0 } }

/-- The module state as the constructor leaves it for a typical
configuration: the two vectors/maps are value-initialized and empty. -/
def stW : ModuleState :=
  { pixel_type_ := 1
  , detector_name_ := ("EUTelescope")
  , dump_mc_truth_ := false
  , collection_names_vector_ := []
  , detector_names_to_id_ := []
  , write_cnt_ := 0
  , geometry_file_name_ := ("")
  , lcio_file_name_ := ("") }

/-- A configuration supplying BOTH collection-naming modes at once. -/
def cfgBoth : Configuration :=
  { pixel_type := 1
  , detector_name := ("EUTelescope")
  , dump_mc_truth := false
  , output_collection_name := some ("zsdata")
  , detector_assignment := some [(("det0"), ("colA"))]
  , geometry_file := ("telescope-geometry")
  , file_name := none }

/-- One hit on detector `det1` at pixel (10, 20). -/
def hit1 : PixelHit := { detectorName := ("det1"), x := 10, y := 20 }

/-- An event carrying exactly that one hit. -/
def evOneHit : Event := { number := 1, pixelMessages := [[hit1]] }

/-- A hit on a detector name absent from any registry. -/
def hitGhost : PixelHit := { detectorName := ("ghost"), x := 3, y := 4 }

/-- An event carrying only the unknown-detector hit. -/
def evGhost : Event := { number := 2, pixelMessages := [[hitGhost]] }

/-- Helper: dividing a rational by `sqrt12` in `Q3` and multiplying back by
`sqrt12` returns the original rational (the division is a true division). -/
theorem q3_div_sqrt12_mul_sqrt12 (q : ℚ) :
    Q3.mul (Units.convertQ (Q3.div (Q3.ofRat q) Q3.sqrt12) Units.mm) Q3.sqrt12 =
      Q3.ofRat q := by
  simp [Units.convertQ, Units.mm, Q3.div, Q3.mul, Q3.inv, Q3.ofRat, Q3.sqrt12]
  ring

/-- Claim C1 (evidence of the code bug): for the event carrying one pixel hit
on detector `det1` at pixel (10, 20), `run` returns successfully with an LCIO
event record that contains no collection at all, allocates no output
collection (the collection-name vector is never populated), and hands nothing
to the writer — the claimed encoding of (detector-ID, x, y) and append never
happen. -/
theorem c1_run_appends_no_hits :
    run stW evOneHit =
      Except.ok
        { event := { runNumber := 1, eventNumber := 1, eventTypeParam := 2, collections := [] }
        , outputCollections := []
        , mc_cluster_vec := none
        , mc_cluster_raw_vec := none
        , mc_hit_vec := none
        , mc_track_vec := none
        , writtenCollections := [] } := by
  rfl

/-- Claim C2 (evidence of the code bug): a configuration supplying BOTH
`output_collection_name` and `detector_assignment` is accepted by the
constructor without any error — no fatal configuration error is reported,
contrary to the claim (and to the constructor's own comment). -/
theorem c2_construct_accepts_both_modes :
    constructModule cfgBoth geoTwo =
      Except.ok
        { pixel_type_ := 1
        , detector_name_ := ("EUTelescope")
        , dump_mc_truth_ := false
        , collection_names_vector_ := []
        , detector_names_to_id_ := []
        , write_cnt_ := 0
        , geometry_file_name_ := ("")
        , lcio_file_name_ := ("") } := by
  rfl

/-- Claim C3 (evidence of the code bug): with two detectors present, the
emitted ladder IDs are `[0, 0]` — the registry `detector_names_to_id_` is
never populated, every lookup yields the value-initialized 0, and the IDs are
not N distinct integers. -/
theorem c3_registry_ids_not_distinct :
    ((mkDocument envW stW geoTwo).layers.map fun l => l.ladder.id) = [0, 0] ∧
      ¬ List.Nodup ((mkDocument envW stW geoTwo).layers.map fun l => l.ladder.id) := by
  constructor
  · rfl
  · decide

/-- Claim C4 (counterexample): for the concrete detector `det0` the emitted
ladder record's radiation-length attribute is 93.65, not the 94.65 the claim
states. -/
theorem c4_radLength_not_94_65 :
    (mkLadder envW stW det0).radLength = 9365 / 100 ∧
      ¬ (mkLadder envW stW det0).radLength = 9465 / 100 := by
  constructor
  · rfl
  · norm_num [mkLadder]

/-- Claim C4 (amended): for every detector, the emitted ladder record's
radiation-length attribute equals the fixed structural constant 93.65, the
same fixed constant appears in the paired sensitive record, and the document
emits exactly one such layer per detector. -/
theorem c4_radLength_is_93_65 (env : ExternalEnv) (st : ModuleState)
    (geo : GeometryManager) (d : Detector) :
    (mkDocument env st geo).layers = geo.detectors.map (fun det => mkLayer env st det) ∧
      (mkLayer env st d).ladder.radLength = 9365 / 100 ∧
      (mkLayer env st d).sensitive.radLength = 9365 / 100 := by
  exact ⟨rfl, rfl, rfl⟩

/-- Claim C5: the geometry document carries one layer per detector, and for
every detector the sensitive record reports extents equal to pixel count
times pitch (not the sensor's geometric size), thickness equal to the
sensor's physical z extent, a resolution equal to pitch-x divided by the
square root of twelve (stated both as the defining expression and as the
product characterization resolution · √12 = pitch-x), and the identity 2×2
rotation block. -/
theorem c5_sensitive_record_fields (env : ExternalEnv) (st : ModuleState)
    (geo : GeometryManager) (d : Detector) :
    (mkDocument env st geo).layers = geo.detectors.map (fun det => mkLayer env st det) ∧
      (mkLayer env st d).sensitive.sizeX = (d.model.nPixels.x : ℚ) * d.model.pixelSize.x ∧
      (mkLayer env st d).sensitive.sizeY = (d.model.nPixels.y : ℚ) * d.model.pixelSize.y ∧
      (mkLayer env st d).sensitive.thickness = d.model.sensorSize.z ∧
      (mkLayer env st d).sensitive.resolution =
        Units.convertQ (Q3.div (Q3.ofRat d.model.pixelSize.x) Q3.sqrt12) Units.mm ∧
      Q3.mul (mkLayer env st d).sensitive.resolution Q3.sqrt12 =
        Q3.ofRat d.model.pixelSize.x ∧
      (mkLayer env st d).sensitive.rotation1 = 1 ∧
      (mkLayer env st d).sensitive.rotation2 = 0 ∧
      (mkLayer env st d).sensitive.rotation3 = 0 ∧
      (mkLayer env st d).sensitive.rotation4 = 1 := by
  refine ⟨rfl, ?_, ?_, ?_, rfl, ?_, rfl, rfl, rfl, rfl⟩
  · simp [mkLayer, mkSensitive, Units.convert, Units.mm]
  · simp [mkLayer, mkSensitive, Units.convert, Units.mm]
  · simp [mkLayer, mkSensitive, Units.convert, Units.mm]
  · exact q3_div_sqrt12_mul_sqrt12 d.model.pixelSize.x

/-- Claim C6: when the magnetic field is constant, the `BField` element
carries the three Cartesian components converted to tesla; when there is no
field, an explicit zero vector is emitted with no warning; for any other
representation a zero vector is emitted together with the logged warning, and
`finalize` still succeeds (the export does not abort). -/
theorem c6_bfield_cases (env : ExternalEnv) (st : ModuleState)
    (dets : List Detector) (b : XYZVector) :
    writeBField
        { detectors := dets, magneticFieldType := MagneticFieldType.CONSTANT
        , magneticFieldAtOrigin := b } env.uT =
      ({ x := Units.convert b.x env.uT, y := Units.convert b.y env.uT
       , z := Units.convert b.z env.uT }, []) ∧
    writeBField
        { detectors := dets, magneticFieldType := MagneticFieldType.NONE
        , magneticFieldAtOrigin := b } env.uT =
      ({ x := 0, y := 0, z := 0 }, []) ∧
    writeBField
        { detectors := dets, magneticFieldType := MagneticFieldType.CUSTOM
        , magneticFieldAtOrigin := b } env.uT =
      ({ x := 0, y := 0, z := 0 }, [fieldTypeWarning]) ∧
    exceptOk
        (finalize env st
          { detectors := dets, magneticFieldType := MagneticFieldType.CUSTOM
          , magneticFieldAtOrigin := b } true) = true := by
  refine ⟨rfl, rfl, rfl, ?_⟩
  unfold finalize
  split
  · rfl
  · simp [exceptOk]

/-- Claim C8 (evidence of the code bug): for an event whose only hit
references a detector absent from the registry, `run` signals no error at all
and writes an event record with no collections — the hit is silently ignored
rather than triggering a fatal configuration-inconsistency error. -/
theorem c8_unknown_detector_no_error :
    exceptOk (run stW evGhost) = true ∧
      Except.map (fun o => o.event.collections) (run stW evGhost) = Except.ok [] := by
  constructor
  · rfl
  · rfl

/-- Claim C9 (evidence of the code bug): with the Monte-Carlo truth dump flag
set, `run` still leaves all four Monte-Carlo collection pointers unallocated
(`none`) and the written event record contains no additional collections. -/
theorem c9_mc_truth_collections_not_allocated :
    run { stW with dump_mc_truth_ := true } evOneHit =
      Except.ok
        { event := { runNumber := 1, eventNumber := 1, eventTypeParam := 2, collections := [] }
        , outputCollections := []
        , mc_cluster_vec := none
        , mc_cluster_raw_vec := none
        , mc_hit_vec := none
        , mc_track_vec := none
        , writtenCollections := [] } := by
  rfl

/-- Claim C10: if the geometry file name resolved at initialize is the empty
string, `finalize` writes no geometry document and completes without error,
whatever the state of the output stream; the error path and all document
emission are reachable only for a non-empty name. -/
theorem c10_empty_geometry_name_no_output (env : ExternalEnv) (st : ModuleState)
    (geo : GeometryManager) (fileGood : Bool) (resolvedGeometryFile resolvedDataFile : String)
    (h : resolvedGeometryFile = ("")) :
    finalize env (initializeModule st resolvedGeometryFile resolvedDataFile) geo fileGood =
      Except.ok (none, []) := by
  simp [finalize, initializeModule, h]

/-- Claim C10 witness: the empty-name case evaluated concretely. -/
theorem c10_empty_geometry_name_no_output_witness :
    finalize envW (initializeModule stW ("") ("run.slcio")) geoTwo false =
      Except.ok (none, []) :=
  c10_empty_geometry_name_no_output envW stW geoTwo false ("") ("run.slcio") rfl

end Allpix
